import Mathlib

/-!
Verification of the led-bargraph display-buffer and coordinate-transform engine.

The definitions below are a shallow embedding of the Rust sources:

* `src/ht16k33/mod.rs` — the matrix driver (`set_led`, `set_bar`, `write_display`,
  `clear`), owning a 16-byte display buffer;
* `src/lib.rs` — the bargraph mapper (`update`, `update_value`, `update_bar`,
  `bar_to_row_common`, `row_common_to_bars`, and the readback/merge loop of `show`).

Machine integers (`u8`) are embedded as `Nat`; all values handled by the claims stay
far below 256, so no wraparound arithmetic arises.  Operations that can panic in Rust
(out-of-bounds buffer indexing, division by zero, arithmetic underflow, `unwrap` of a
failed `LedLocation::new`) are embedded as `Option`-returning functions, with `none`
marking the panic.
-/

namespace LedBargraph

/-- The display buffer: an ordered sequence of 16 bytes, index = row (0–15),
bit position (0–7) = common.  Embeds `buffer: [u8; 16]`. -/
abbrev Buffer := List Nat

/-- A freshly cleared buffer, as produced by driver construction and by `clear` /
`clear_display_buffer`: all 16 bytes zero. -/
def zeroBuffer : Buffer := List.replicate 16 0

/-- LED colors (`LedColor` in `src/lib.rs`). -/
inductive LedColor
  | off
  | green
  | red
  | yellow
deriving DecidableEq

/-- The 2-bit color-mask encoding of `src/ht16k33/mod.rs`
(`COLOR_OFF = 0`, `COLOR_GREEN = 1`, `COLOR_RED = 2`, `COLOR_YELLOW = 3`):
bit 0 is green, bit 1 is red. -/
def colorOfNat : Nat → LedColor
  | 0 => LedColor.off
  | 1 => LedColor.green
  | 2 => LedColor.red
  | _ => LedColor.yellow

/-- The read–modify–write of one buffer byte shared by every LED-set primitive:
set (`|= 1 << off`) or clear (`&= !(1 << off)`, i.e. mask with the 8-bit
complement) bit `off` of the byte at index `row`. -/
def writeBit (buf : Buffer) (row off : Nat) (enabled : Bool) : Buffer :=
  let byte := buf.getD row 0
  buf.set row (if enabled then byte ||| (1 <<< off) else byte &&& (255 ^^^ (1 <<< off)))

/-- `HT16K33::set_led` (`src/ht16k33/mod.rs:197`): computes
`(pos, offset) = led.div_mod_floor(&8)` and sets/clears that bit of `buffer[pos]`.
Indexing `buffer[pos]` with `pos ≥ 16` panics in Rust; embedded as `none`. -/
def set_led (buf : Buffer) (led : Nat) (enabled : Bool) : Option Buffer :=
  let pos := led / 8
  let off := led % 8
  if pos < 16 then some (writeBit buf pos off enabled) else none

/-- `HT16K33::set_bar` (`src/ht16k33/mod.rs:219`): cathode/anode decomposition.
`(c, a) = (bar < 12 ? bar : bar - 12).div_mod_floor(&4)`; `a += 4` for `bar ≥ 12`;
green LED at `c*16 + a + 8` iff bit 0 of `color`, red LED at `c*16 + a` iff bit 1. -/
def set_bar (buf : Buffer) (bar color : Nat) : Option Buffer :=
  let half := if bar < 12 then bar else bar - 12
  let c := half / 4
  let a := half % 4 + (if bar < 12 then 0 else 4)
  (set_led buf (c * 16 + a + 8) (decide (color &&& 1 > 0))).bind
    (fun b => set_led b (c * 16 + a) (decide (color &&& 2 > 0)))

/-- The driver error type (`HT16K33Error` in `src/ht16k33/mod.rs`): a failed bus
operation is wrapped as `Device`. -/
inductive HT16K33Error (ε : Type)
  | Device : ε → HT16K33Error ε
  | Error
deriving DecidableEq

/-- One step of `HT16K33::write_display` (`src/ht16k33/mod.rs:183`) per remaining row:
issue the bus write `smbus_write_byte_data(row, buffer[row])`, recording it in the
returned trace; on the first bus error stop and return it wrapped as `Device`. -/
def write_rows (bus : Nat → Nat → Except ε Unit) (buf : Buffer) :
    List Nat → List (Nat × Nat) × Except (HT16K33Error ε) Unit
  | [] => ([], Except.ok ())
  | r :: rest =>
    match bus r (buf.getD r 0) with
    | Except.ok _ =>
      let next := write_rows bus buf rest
      ((r, buf.getD r 0) :: next.1, next.2)
    | Except.error e => ([(r, buf.getD r 0)], Except.error (HT16K33Error.Device e))

/-- `HT16K33::write_display`: one bus write per row, rows `0..16` in increasing
order, stopping at the first failure.  The first component is the trace of bus
writes actually issued (register, value). -/
def write_display (bus : Nat → Nat → Except ε Unit) (buf : Buffer) :
    List (Nat × Nat) × Except (HT16K33Error ε) Unit :=
  write_rows bus buf (List.range 16)

/-- Modelled from the spec: the `LedLocation` of the external `ht16k33` crate used by
`src/lib.rs` — "row selects one of 16 output bytes, common selects one of 8 bits
within that byte" (spec §3, Glossary). -/
structure LedLocation where
  row : Nat
  common : Nat
deriving DecidableEq

/-- Modelled from the spec: `LedLocation::new` of the external `ht16k33` crate
validates `row < 16` and `common < 8`; `update_bar` unwraps the result, so a failed
construction is a panic (`none`). -/
def LedLocation.new (row common : Nat) : Option LedLocation :=
  if row < 16 ∧ common < 8 then some ⟨row, common⟩ else none

/-- Modelled from the spec: `update_display_buffer` of the external `ht16k33` crate
sets or clears the single bit `common` of buffer byte `row` (spec §3: "any LED
address maps deterministically to exactly one (row, bit) pair"). -/
def update_display_buffer (buf : Buffer) (loc : LedLocation) (enabled : Bool) : Buffer :=
  writeBit buf loc.row loc.common enabled

/-- `Bargraph::bar_to_row_common` (`src/lib.rs:396`): the divmod-by-12 transform.
`(count, remainder) = bar.div_mod_floor(&12)`; `(row, common) = remainder.div_mod_floor(&4)`;
`row *= 2`; `common += count * 4`. -/
def bar_to_row_common (bar : Nat) : Nat × Nat :=
  let count := bar / 12
  let remainder := bar % 12
  let row := (remainder / 4) * 2
  let common := remainder % 4 + count * 4
  (row, common)

/-- `Bargraph::update_bar` (`src/lib.rs:379`): red LED at `(row, common)`, green LED
at `(row + 1, common)`; both `LedLocation::new(..).unwrap()` calls happen before
either buffer write. -/
def update_bar (buf : Buffer) (bar : Nat) (color : LedColor) : Option Buffer :=
  let rc := bar_to_row_common bar
  (LedLocation.new rc.1 rc.2).bind fun redLed =>
  (LedLocation.new (rc.1 + 1) rc.2).bind fun greenLed =>
    let redEnabled := decide (color = LedColor.red ∨ color = LedColor.yellow)
    let greenEnabled := decide (color = LedColor.green ∨ color = LedColor.yellow)
    some (update_display_buffer (update_display_buffer buf redLed redEnabled) greenLed greenEnabled)

/-- `Bargraph::update_value` (`src/lib.rs:345`): `value_size = 24 / range`
(`BARGRAPH_RESOLUTION = 24`; division by `range = 0` panics, and
`start_bar + value_size - 1` underflows when `value_size = 0`, both `none`).
Bars `start_bar..end_bar` (exclusive) get Yellow when filled and Off when not; the
single bar at `end_bar` gets Red when filled and Green when not. -/
def update_value (buf : Buffer) (value range : Nat) (fill : Bool) : Option Buffer :=
  if range = 0 then none
  else
    let value_size := 24 / range
    if value_size = 0 then none
    else
      let start_bar := value * value_size
      let end_bar := start_bar + value_size - 1
      ((List.range' start_bar (end_bar - start_bar)).foldlM
        (fun b current => update_bar b current (if fill then LedColor.yellow else LedColor.off))
        buf).bind
        (fun b => update_bar b end_bar (if fill then LedColor.red else LedColor.green))

/-- `Bargraph::update` (`src/lib.rs:190`): clear the buffer, clamp `value` to `range`
(setting the blink flag) when `value > range`, then render bars `1..=range` with
`fill = (current ≤ clamped)`.  Returns the final buffer and the blink flag. -/
def update (value range : Nat) : Option (Buffer × Bool) :=
  let blink := decide (range < value)
  let clamped := if range < value then range else value
  ((List.range range).foldlM
    (fun buf i => update_value buf i range (decide (i + 1 ≤ clamped)))
    zeroBuffer).map (fun buf => (buf, blink))

/-- The display state of the external `ht16k33` crate used by `src/lib.rs`
(`Display::ON / OFF / HALF_HZ / ONE_HZ / TWO_HZ`), i.e. display-on with blink rate
off, 0.5 Hz, 1 Hz, or 2 Hz. -/
inductive Display
  | on
  | off
  | halfHz
  | oneHz
  | twoHz
deriving DecidableEq

/-- `Bargraph::set_blink` (`src/lib.rs:244`): the display state requested when
blinking is enabled or disabled. -/
def set_blink (enabled : Bool) : Display :=
  if enabled then Display.oneHz else Display.on

/-- `COMMONS_SIZE` of the external `ht16k33` crate: 8 commons per row (spec §3). -/
def COMMONS_SIZE : Nat := 8

/-- `Bargraph::row_common_to_bars` (`src/lib.rs:418`): the inverse transform for one
row.  `(row, green) = row_in.div_mod_floor(&2)`; for each bit position,
`(count, common) = position.div_mod_floor(&4)` and `bar = count*12 + row*4 + common`;
the entry is Green (odd row) or Red (even row) when the bit is set, Off otherwise. -/
def row_common_to_bars (row_in common_in : Nat) : List (Option LedColor) :=
  let row := row_in / 2
  let green := row_in % 2
  (List.range COMMONS_SIZE).foldl
    (fun bars position =>
      let check := 1 <<< position
      let count := position / 4
      let common := position % 4
      let remainder := row * 4 + common
      let bar := count * 12 + remainder
      let enabled := decide (check = common_in &&& check)
      bars.set bar
        (some (if enabled then (if green = 1 then LedColor.green else LedColor.red)
               else LedColor.off)))
    (List.replicate 24 none)

/-- One merge step of the readback loop in `Bargraph::show` (`src/lib.rs:292`):
a Red contribution over Green (or Green over Red) becomes Yellow, any contribution
replaces Off, Yellow absorbs everything, and a missing entry changes nothing. -/
def merge_color (led : LedColor) (contribution : Option LedColor) : LedColor :=
  match contribution with
  | none => led
  | some color =>
    match led with
    | LedColor.green => if color = LedColor.red then LedColor.yellow else LedColor.green
    | LedColor.red => if color = LedColor.green then LedColor.yellow else LedColor.red
    | LedColor.off => color
    | LedColor.yellow => LedColor.yellow

/-- The full readback of `Bargraph::show`: decode the first 6 rows of the buffer via
`row_common_to_bars` and merge them into the 24 logical bar colors. -/
def buffer_to_bars (buf : Buffer) : List LedColor :=
  (List.range 6).foldl
    (fun leds row => List.zipWith merge_color leds (row_common_to_bars row (buf.getD row 0)))
    (List.replicate 24 LedColor.off)

/-- The decoded color of logical bar `p` of a buffer. -/
def barColorAt (buf : Buffer) (p : Nat) : LedColor :=
  (buffer_to_bars buf).getD p LedColor.off

/-- The testable state of one physical LED: bit `a % 8` of buffer byte `a / 8`. -/
def bufTestBit (buf : Buffer) (a : Nat) : Bool :=
  Nat.testBit (buf.getD (a / 8) 0) (a % 8)

/-- The cathode of a bar, per the forward mapping of `set_bar`. -/
def cathode (bar : Nat) : Nat := (if bar < 12 then bar else bar - 12) / 4

/-- The anode of a bar, per the forward mapping of `set_bar`. -/
def anode (bar : Nat) : Nat :=
  (if bar < 12 then bar else bar - 12) % 4 + (if bar < 12 then 0 else 4)

/-- The green LED address of a bar: `cathode * 16 + anode + 8`. -/
def green_address (bar : Nat) : Nat := cathode bar * 16 + anode bar + 8

/-- The red LED address of a bar: `cathode * 16 + anode`. -/
def red_address (bar : Nat) : Nat := cathode bar * 16 + anode bar

def spanCheckBuf (value range : Nat) (buf : Buffer) (blink : Bool) : Bool :=
  let bars := buffer_to_bars buf
  let s := 24 / range
  !blink &&
    (List.range range).all (fun b =>
      decide (bars.getD (b * s + s - 1) LedColor.off =
        (if b + 1 ≤ value then LedColor.red else LedColor.green)) &&
      (List.range' (b * s) (s - 1)).all (fun p =>
        decide (bars.getD p LedColor.off =
          (if b + 1 ≤ value then LedColor.yellow else LedColor.off))))

def spanCheck (value range : Nat) : Bool :=
  match update value range with
  | none => false
  | some (buf, blink) => spanCheckBuf value range buf blink

/-- A bus that accepts every write. -/
def busOk : Nat → Nat → Except Nat Unit := fun _ _ => Except.ok ()

/-- A bus that fails the write for row 3 with error 7. -/
def busFailAt3 : Nat → Nat → Except Nat Unit :=
  fun r _ => if r = 3 then Except.error 7 else Except.ok ()

theorem getD_set_self (l : Buffer) (i v : Nat) (h : i < l.length) :
    (l.set i v).getD i 0 = v := by
  simp [List.getD_eq_getElem?_getD, List.getElem?_set_self h]

theorem getD_set_ne (l : Buffer) (i j v : Nat) (h : i ≠ j) :
    (l.set i v).getD j 0 = l.getD j 0 := by
  simp [List.getD_eq_getElem?_getD, List.getElem?_set_ne h]

theorem writeBit_comm (buf : Buffer) (i1 o1 : Nat) (b1 : Bool) (i2 o2 : Nat) (b2 : Bool)
    (h : i1 ≠ i2) :
    writeBit (writeBit buf i1 o1 b1) i2 o2 b2 = writeBit (writeBit buf i2 o2 b2) i1 o1 b1 := by
  simp only [writeBit]
  rw [getD_set_ne _ _ _ _ h, getD_set_ne _ _ _ _ (Ne.symm h), List.set_comm _ _ _ h]

theorem testBit_255 (j : Nat) : Nat.testBit 255 j = decide (j < 8) := by
  have h := Nat.testBit_two_pow_sub_one 8 j
  norm_num at h
  exact h

theorem testBit_setByte (byte o i : Nat) (e : Bool) (hi : i < 8) :
    Nat.testBit (if e then byte ||| (1 <<< o) else byte &&& (255 ^^^ (1 <<< o))) i =
      if i = o then e else Nat.testBit byte i := by
  have h1 : (1 <<< o) = 2 ^ o := Nat.one_shiftLeft o
  by_cases hio : i = o
  · subst hio
    cases e
    · simp [h1, Nat.testBit_and, Nat.testBit_xor, Nat.testBit_two_pow, testBit_255, hi]
    · simp [h1, Nat.testBit_or, Nat.testBit_two_pow]
  · have hoi : ¬ o = i := fun hh => hio hh.symm
    cases e
    · simp [h1, Nat.testBit_and, Nat.testBit_xor, Nat.testBit_two_pow, testBit_255, hi, hoi, hio]
    · simp [h1, Nat.testBit_or, Nat.testBit_two_pow, hoi, hio]

theorem set_led_effect (buf : Buffer) (hlen : buf.length = 16) (led : Nat) (hled : led < 128)
    (e : Bool) :
    ∃ buf2, set_led buf led e = some buf2 ∧ buf2.length = 16 ∧
      ∀ a, a < 128 → bufTestBit buf2 a = if a = led then e else bufTestBit buf a := by
  have hpos : led / 8 < 16 := by omega
  refine ⟨writeBit buf (led / 8) (led % 8) e, by simp [set_led, hpos], by simp [writeBit, hlen], ?_⟩
  intro a ha
  have ha8 : a % 8 < 8 := Nat.mod_lt _ (by omega)
  by_cases hrow : a / 8 = led / 8
  · simp only [bufTestBit, writeBit, hrow]
    rw [getD_set_self _ _ _ (by omega)]
    rw [testBit_setByte _ _ _ _ ha8]
    by_cases hal : a = led
    · simp [hal]
    · have : a % 8 ≠ led % 8 := by omega
      simp [this, hal]
  · simp only [bufTestBit, writeBit]
    rw [getD_set_ne _ _ _ _ (fun hh => hrow hh.symm)]
    have : a ≠ led := by omega
    simp [this]

/-- C1: for every bar index in 0..24 and every color mask, writing the bar via the
forward mapping (`bar_to_row_common` / `update_bar`) into an all-off buffer and then
decoding via the inverse mapping (`row_common_to_bars` over the first 6 rows with the
Green+Red-merges-to-Yellow rule) yields exactly the original color for that bar. -/
theorem c1_round_trip (bar c : Nat) (hbar : bar < 24) (hc : c < 4) :
    ∃ buf, update_bar zeroBuffer bar (colorOfNat c) = some buf ∧
      barColorAt buf bar = colorOfNat c := by
  have h : ∀ bar2 : Nat, bar2 < 24 → ∀ c2 : Nat, c2 < 4 →
      (update_bar zeroBuffer bar2 (colorOfNat c2)).map (fun buf => barColorAt buf bar2) =
        some (colorOfNat c2) := by decide
  have h2 := h bar hbar c hc
  rw [Option.map_eq_some'] at h2
  obtain ⟨buf, hbuf, hcol⟩ := h2
  exact ⟨buf, hbuf, hcol⟩

/-- Witness for C1 at bar 7, color Yellow. -/
theorem c1_round_trip_witness :
    ∃ buf, update_bar zeroBuffer 7 (colorOfNat 3) = some buf ∧
      barColorAt buf 7 = colorOfNat 3 :=
  c1_round_trip 7 3 (by decide) (by decide)

theorem address_bounds (bar : Nat) (hbar : bar < 24) :
    red_address bar < 128 ∧ green_address bar < 128 ∧ green_address bar ≠ red_address bar := by
  unfold green_address red_address cathode anode
  split <;> omega

theorem color_bits (c : Nat) (hc : c < 4) :
    decide (c &&& 1 > 0) = c.testBit 0 ∧ decide (c &&& 2 > 0) = c.testBit 1 := by
  interval_cases c <;> exact ⟨by decide, by decide⟩

/-- C2: the forward mapping of `set_bar` sets the green LED at address
`cathode*16 + anode + 8` iff bit 0 of the color mask is set, and the red LED at
`cathode*16 + anode` iff bit 1 is set, leaving every other LED untouched. -/
theorem c2_forward_mapping (bar color : Nat) (hbar : bar < 24) (hc : color < 4)
    (buf : Buffer) (hlen : buf.length = 16) :
    ∃ buf2, set_bar buf bar color = some buf2 ∧
      bufTestBit buf2 (green_address bar) = color.testBit 0 ∧
      bufTestBit buf2 (red_address bar) = color.testBit 1 ∧
      ∀ a, a < 128 → a ≠ green_address bar → a ≠ red_address bar →
        bufTestBit buf2 a = bufTestBit buf a := by
  obtain ⟨hr128, hg128, hgr⟩ := address_bounds bar hbar
  obtain ⟨hbit0, hbit1⟩ := color_bits color hc
  obtain ⟨b1, hb1, hlen1, heff1⟩ :=
    set_led_effect buf hlen (green_address bar) hg128 (decide (color &&& 1 > 0))
  obtain ⟨b2, hb2, hlen2, heff2⟩ :=
    set_led_effect b1 hlen1 (red_address bar) hr128 (decide (color &&& 2 > 0))
  refine ⟨b2, ?_, ?_, ?_, ?_⟩
  · show (set_led buf (green_address bar) (decide (color &&& 1 > 0))).bind
      (fun b => set_led b (red_address bar) (decide (color &&& 2 > 0))) = some b2
    rw [hb1]
    exact hb2
  · rw [heff2 _ hg128, if_neg hgr, heff1 _ hg128, if_pos rfl, hbit0]
  · rw [heff2 _ hr128, if_pos rfl, hbit1]
  · intro a ha hag har
    rw [heff2 _ ha, if_neg har, heff1 _ ha, if_neg hag]

/-- Witness for C2 at bar 5, color Yellow, on a cleared buffer. -/
theorem c2_forward_mapping_witness :
    ∃ buf2, set_bar zeroBuffer 5 3 = some buf2 ∧
      bufTestBit buf2 (green_address 5) = Nat.testBit 3 0 ∧
      bufTestBit buf2 (red_address 5) = Nat.testBit 3 1 ∧
      ∀ a, a < 128 → a ≠ green_address 5 → a ≠ red_address 5 →
        bufTestBit buf2 a = bufTestBit zeroBuffer a :=
  c2_forward_mapping 5 3 (by decide) (by decide) zeroBuffer (by decide)

/-- C9: `set_led(address, enabled)` with address in 0..128 computes row = address / 8
and bit = address % 8, sets or clears exactly that one bit of the buffer, and leaves
every other bit of every buffer byte unchanged; no bus interaction is involved. -/
theorem c9_set_led (led : Nat) (hled : led < 128) (enabled : Bool) (buf : Buffer)
    (hlen : buf.length = 16) :
    ∃ buf2, set_led buf led enabled = some buf2 ∧
      Nat.testBit (buf2.getD (led / 8) 0) (led % 8) = enabled ∧
      ∀ a, a < 128 → a ≠ led → bufTestBit buf2 a = bufTestBit buf a := by
  obtain ⟨buf2, hb, hlen2, heff⟩ := set_led_effect buf hlen led hled enabled
  refine ⟨buf2, hb, ?_, ?_⟩
  · have := heff led hled
    rw [if_pos rfl] at this
    exact this
  · intro a ha hne
    rw [heff a ha, if_neg hne]

/-- Witness for C9: `set_led(11, true)` on a cleared buffer sets bit 3 of row 1. -/
theorem c9_set_led_witness :
    ∃ buf2, set_led zeroBuffer 11 true = some buf2 ∧
      Nat.testBit (buf2.getD (11 / 8) 0) (11 % 8) = true ∧
      ∀ a, a < 128 → a ≠ 11 → bufTestBit buf2 a = bufTestBit zeroBuffer a :=
  c9_set_led 11 (by decide) true zeroBuffer (by decide)

/-- C3: the cathode/anode variant (`set_bar`) and the divmod-by-12 variant
(`bar_to_row_common` applied by `update_bar`) produce exactly the same buffer from
any 16-byte buffer, for every bar 0..24 and every color. -/
theorem c3_variants_equal (bar c : Nat) (hbar : bar < 24) (hc : c < 4) (buf : Buffer)
    (hlen : buf.length = 16) :
    set_bar buf bar c = update_bar buf bar (colorOfNat c) := by
  interval_cases bar <;> interval_cases c <;>
    · simp only [set_bar, set_led, update_bar, bar_to_row_common, LedLocation.new,
        update_display_buffer, colorOfNat]
      norm_num
      exact writeBit_comm buf _ _ _ _ _ _ (by decide)

/-- Witness for C3 at bar 17, color Red, on a cleared buffer. -/
theorem c3_variants_equal_witness :
    set_bar zeroBuffer 17 2 = update_bar zeroBuffer 17 (colorOfNat 2) :=
  c3_variants_equal 17 2 (by decide) (by decide) zeroBuffer (by decide)

/-- Counterexample for C4 as stated: enabling blink selects `Display::ONE_HZ`
(1 Hz), not the claimed 2 Hz. -/
theorem c4_blink_counterexample :
    set_blink true = Display.oneHz ∧ Display.oneHz ≠ Display.twoHz := by decide

/-- C4 (amended): for value > range, `update(value, range)` produces exactly the
buffer of `update(range, range)` and signals blink = true, which enables blink rate
1 Hz instead of off; for value ≤ range the blink flag stays off. -/
theorem c4_clamp_and_blink (value range : Nat) (h : range < value) :
    update value range = (update range range).map (fun p => (p.1, true)) ∧
    set_blink true = Display.oneHz ∧ set_blink false = Display.on ∧
    (∀ v r : Nat, v ≤ r → ∀ buf blink, update v r = some (buf, blink) → blink = false) := by
  refine ⟨?_, rfl, rfl, ?_⟩
  · simp [update, h, Nat.lt_irrefl, Option.map_map]
    rfl
  · intro v r hvr buf blink hup
    simp only [update, Option.map_eq_some'] at hup
    obtain ⟨b, -, heq⟩ := hup
    have h2 : decide (r < v) = blink := congrArg Prod.snd heq
    rw [← h2]
    simp [Nat.not_lt.mpr hvr]

/-- Witness for C4 (amended) at value 5, range 3. -/
theorem c4_clamp_and_blink_witness :
    update 5 3 = (update 3 3).map (fun p => (p.1, true)) ∧
    set_blink true = Display.oneHz ∧ set_blink false = Display.on ∧
    (∀ v r : Nat, v ≤ r → ∀ buf blink, update v r = some (buf, blink) → blink = false) :=
  c4_clamp_and_blink 5 3 (by decide)

/-- Counterexample for C6 as stated: `update(0, 1)` yields a buffer with the green
header bit of the last bar set (row 5, bit 7), not an all-zero buffer. -/
theorem c6_counterexample :
    update 0 1 = some ([0, 0, 0, 0, 0, 128, 0, 0, 0, 0, 0, 0, 0, 0, 0, 0], false) ∧
    ([0, 0, 0, 0, 0, 128, 0, 0, 0, 0, 0, 0, 0, 0, 0, 0] : Buffer) ≠ zeroBuffer := by
  exact ⟨by decide, by decide⟩

/-- Counterexample for C7 as stated: `update(5, 0)` does not surface an error — it
succeeds, returning a cleared buffer with the blink flag set. -/
theorem c7_counterexample : update 5 0 = some (zeroBuffer, true) := by decide

/-- C7 (amended): `update(value, 0)` never divides by zero: the render loop is empty,
so it succeeds as a no-op, returning the cleared buffer with blink set iff value > 0. -/
theorem c7_range_zero (value : Nat) :
    update value 0 = some (zeroBuffer, decide (0 < value)) := by
  simp [update]

theorem write_rows_ok (bus : Nat → Nat → Except ε Unit) (buf : Buffer) (rs : List Nat)
    (h : ∀ r ∈ rs, bus r (buf.getD r 0) = Except.ok ()) :
    write_rows bus buf rs = (rs.map (fun r => (r, buf.getD r 0)), Except.ok ()) := by
  induction rs with
  | nil => rfl
  | cons r rest ih =>
    simp only [write_rows, h r (List.mem_cons_self r rest),
      ih (fun x hx => h x (List.mem_cons_of_mem r hx)), List.map_cons]

theorem write_rows_fail (bus : Nat → Nat → Except ε Unit) (buf : Buffer) (k : Nat) (e : ε)
    (hk : bus k (buf.getD k 0) = Except.error e) (rs1 : List Nat)
    (h : ∀ r ∈ rs1, bus r (buf.getD r 0) = Except.ok ()) (rs2 : List Nat) :
    write_rows bus buf (rs1 ++ k :: rs2) =
      ((rs1 ++ [k]).map (fun r => (r, buf.getD r 0)), Except.error (HT16K33Error.Device e)) := by
  induction rs1 with
  | nil =>
    simp only [List.nil_append, write_rows]
    rw [hk]
    rfl
  | cons r rest ih =>
    simp only [List.cons_append, write_rows, List.append_eq,
      h r (List.mem_cons_self r rest),
      ih (fun x hx => h x (List.mem_cons_of_mem r hx)), List.map_cons]

/-- C8: `write_display` issues exactly one bus write per row, for all 16 rows in
increasing order; if the write for some row fails, the wrapped device error is
returned at once and no later row is written; if every write succeeds it returns ok. -/
theorem c8_write_display (bus : Nat → Nat → Except ε Unit) (buf : Buffer) :
    ((∀ r, r < 16 → bus r (buf.getD r 0) = Except.ok ()) →
      write_display bus buf = ((List.range 16).map (fun r => (r, buf.getD r 0)), Except.ok ())) ∧
    (∀ k e, k < 16 → (∀ r, r < k → bus r (buf.getD r 0) = Except.ok ()) →
      bus k (buf.getD k 0) = Except.error e →
      write_display bus buf =
        ((List.range (k + 1)).map (fun r => (r, buf.getD r 0)),
          Except.error (HT16K33Error.Device e))) := by
  constructor
  · intro h
    exact write_rows_ok bus buf (List.range 16) (fun r hr => h r (List.mem_range.mp hr))
  · intro k e hk hok herr
    have hsplit : List.range 16 = List.range k ++ k :: List.range' (k + 1) (15 - k) := by
      have h1 : List.range' 0 k ++ List.range' (0 + k) (16 - k) = List.range' 0 (16 - k + k) :=
        List.range'_append_1 0 k (16 - k)
      rw [List.range_eq_range', List.range_eq_range',
        show (16 : Nat) = 16 - k + k by omega, ← h1, Nat.zero_add,
        show 16 - k = (15 - k) + 1 by omega, List.range'_succ]
    rw [write_display, hsplit,
      write_rows_fail bus buf k e herr (List.range k)
        (fun r hr => hok r (List.mem_range.mp hr)) (List.range' (k + 1) (15 - k))]
    rw [List.range_succ]

/-- Witness for C8: rows 0..16 written in order on success; rows 0..4 only, with the
wrapped error, when row 3 fails. -/
theorem c8_write_display_witness :
    write_display busOk zeroBuffer =
      ((List.range 16).map (fun r => (r, zeroBuffer.getD r 0)), Except.ok ()) ∧
    write_display busFailAt3 zeroBuffer =
      ((List.range 4).map (fun r => (r, zeroBuffer.getD r 0)),
        Except.error (HT16K33Error.Device 7)) :=
  ⟨(c8_write_display busOk zeroBuffer).1 (fun _ _ => rfl),
   (c8_write_display busFailAt3 zeroBuffer).2 3 7 (by decide)
     (fun r hr => by
       have : r ≠ 3 := by omega
       simp [busFailAt3, this])
     rfl⟩

/-- C10: for every bar 0..24 and any buffer, the forward mappings stay in bounds:
both LED addresses of `set_bar` are below 128 (so `set_led` indexes row < 16 and
cannot fail), and both `LedLocation::new` calls of `update_bar` succeed; for bar
indices beyond this range the unvalidated index can make the access panic, as at
`set_bar` on bar 44 and `update_bar` on bar 24. -/
theorem c10_bounds :
    (∀ bar color : Nat, bar < 24 → color < 4 → ∀ buf : Buffer,
      red_address bar < 128 ∧ green_address bar < 128 ∧ (set_bar buf bar color).isSome = true) ∧
    (∀ bar : Nat, bar < 24 → ∀ color : LedColor, ∀ buf : Buffer,
      (update_bar buf bar color).isSome = true) ∧
    set_bar zeroBuffer 44 3 = none ∧
    update_bar zeroBuffer 24 LedColor.yellow = none := by
  refine ⟨?_, ?_, by decide, by decide⟩
  · intro bar color hbar hc buf
    obtain ⟨hr128, hg128, -⟩ := address_bounds bar hbar
    refine ⟨hr128, hg128, ?_⟩
    have hg : green_address bar / 8 < 16 := by omega
    have hr : red_address bar / 8 < 16 := by omega
    show ((set_led buf (green_address bar) (decide (color &&& 1 > 0))).bind
      (fun b => set_led b (red_address bar) (decide (color &&& 2 > 0)))).isSome = true
    simp [set_led, hg, hr]
  · intro bar hbar color buf
    have hrc : (bar_to_row_common bar).1 < 16 ∧ (bar_to_row_common bar).2 < 8 ∧
        (bar_to_row_common bar).1 + 1 < 16 := by
      simp only [bar_to_row_common]
      omega
    simp [update_bar, LedLocation.new, hrc.1, hrc.2.1, hrc.2.2]

/-- Witness for C10 at bar 5, color Yellow / Red, on a cleared buffer. -/
theorem c10_bounds_witness :
    (red_address 5 < 128 ∧ green_address 5 < 128 ∧ (set_bar zeroBuffer 5 3).isSome = true) ∧
    (update_bar zeroBuffer 5 LedColor.red).isSome = true :=
  ⟨c10_bounds.1 5 3 (by decide) (by decide) zeroBuffer,
   c10_bounds.2.1 5 (by decide) LedColor.red zeroBuffer⟩

set_option maxHeartbeats 2000000 in
theorem spanCheck_all_1 : (List.range 2).all (fun v => spanCheck v 1) = true := by
  decide

set_option maxHeartbeats 2000000 in
theorem spanCheck_all_2 : (List.range 3).all (fun v => spanCheck v 2) = true := by
  decide

set_option maxHeartbeats 2000000 in
theorem spanCheck_all_3 : (List.range 4).all (fun v => spanCheck v 3) = true := by
  decide

set_option maxHeartbeats 2000000 in
theorem spanCheck_all_4 : (List.range 5).all (fun v => spanCheck v 4) = true := by
  decide

set_option maxHeartbeats 2000000 in
theorem spanCheck_all_5 : (List.range 6).all (fun v => spanCheck v 5) = true := by
  decide

set_option maxHeartbeats 2000000 in
theorem spanCheck_all_6 : (List.range 7).all (fun v => spanCheck v 6) = true := by
  decide

set_option maxHeartbeats 2000000 in
theorem spanCheck_all_7 : (List.range 8).all (fun v => spanCheck v 7) = true := by
  decide

set_option maxHeartbeats 2000000 in
theorem spanCheck_all_8 : (List.range 9).all (fun v => spanCheck v 8) = true := by
  decide

set_option maxHeartbeats 2000000 in
theorem spanCheck_all_9 : (List.range 10).all (fun v => spanCheck v 9) = true := by
  decide

set_option maxHeartbeats 2000000 in
theorem spanCheck_all_10 : (List.range 11).all (fun v => spanCheck v 10) = true := by
  decide

set_option maxHeartbeats 2000000 in
theorem spanCheck_all_11 : (List.range 12).all (fun v => spanCheck v 11) = true := by
  decide

set_option maxHeartbeats 2000000 in
theorem spanCheck_all_12 : (List.range 13).all (fun v => spanCheck v 12) = true := by
  decide

set_option maxHeartbeats 2000000 in
theorem spanCheck_all_13 : (List.range 14).all (fun v => spanCheck v 13) = true := by
  decide

set_option maxHeartbeats 2000000 in
theorem spanCheck_all_14 : (List.range 15).all (fun v => spanCheck v 14) = true := by
  decide

set_option maxHeartbeats 2000000 in
theorem spanCheck_all_15 : (List.range 16).all (fun v => spanCheck v 15) = true := by
  decide

set_option maxHeartbeats 2000000 in
theorem spanCheck_all_16 : (List.range 17).all (fun v => spanCheck v 16) = true := by
  decide

set_option maxHeartbeats 2000000 in
theorem spanCheck_all_17 : (List.range 18).all (fun v => spanCheck v 17) = true := by
  decide

set_option maxHeartbeats 2000000 in
theorem spanCheck_all_18 : (List.range 19).all (fun v => spanCheck v 18) = true := by
  decide

set_option maxHeartbeats 2000000 in
theorem spanCheck_all_19 : (List.range 20).all (fun v => spanCheck v 19) = true := by
  decide

set_option maxHeartbeats 2000000 in
theorem spanCheck_all_20 : (List.range 21).all (fun v => spanCheck v 20) = true := by
  decide

set_option maxHeartbeats 2000000 in
theorem spanCheck_all_21 : (List.range 22).all (fun v => spanCheck v 21) = true := by
  decide

set_option maxHeartbeats 2000000 in
theorem spanCheck_all_22 : (List.range 23).all (fun v => spanCheck v 22) = true := by
  decide

set_option maxHeartbeats 2000000 in
theorem spanCheck_all_23 : (List.range 24).all (fun v => spanCheck v 23) = true := by
  decide

set_option maxHeartbeats 2000000 in
theorem spanCheck_all_24 : (List.range 25).all (fun v => spanCheck v 24) = true := by
  decide

theorem spanCheck_true : ∀ range : Nat, range < 25 → ∀ value : Nat, value < 25 →
    1 ≤ range → value ≤ range → spanCheck value range = true := by
  intro range h1 value h2 h3 h4
  have hmem : value ∈ List.range (range + 1) := List.mem_range.mpr (by omega)
  interval_cases range
  · exact List.all_eq_true.mp spanCheck_all_1 value hmem
  · exact List.all_eq_true.mp spanCheck_all_2 value hmem
  · exact List.all_eq_true.mp spanCheck_all_3 value hmem
  · exact List.all_eq_true.mp spanCheck_all_4 value hmem
  · exact List.all_eq_true.mp spanCheck_all_5 value hmem
  · exact List.all_eq_true.mp spanCheck_all_6 value hmem
  · exact List.all_eq_true.mp spanCheck_all_7 value hmem
  · exact List.all_eq_true.mp spanCheck_all_8 value hmem
  · exact List.all_eq_true.mp spanCheck_all_9 value hmem
  · exact List.all_eq_true.mp spanCheck_all_10 value hmem
  · exact List.all_eq_true.mp spanCheck_all_11 value hmem
  · exact List.all_eq_true.mp spanCheck_all_12 value hmem
  · exact List.all_eq_true.mp spanCheck_all_13 value hmem
  · exact List.all_eq_true.mp spanCheck_all_14 value hmem
  · exact List.all_eq_true.mp spanCheck_all_15 value hmem
  · exact List.all_eq_true.mp spanCheck_all_16 value hmem
  · exact List.all_eq_true.mp spanCheck_all_17 value hmem
  · exact List.all_eq_true.mp spanCheck_all_18 value hmem
  · exact List.all_eq_true.mp spanCheck_all_19 value hmem
  · exact List.all_eq_true.mp spanCheck_all_20 value hmem
  · exact List.all_eq_true.mp spanCheck_all_21 value hmem
  · exact List.all_eq_true.mp spanCheck_all_22 value hmem
  · exact List.all_eq_true.mp spanCheck_all_23 value hmem
  · exact List.all_eq_true.mp spanCheck_all_24 value hmem

/-- C5: for every bar rendered by `update(value, range)` with segment size
`24 / range`, every LED pair strictly between the span start `b * size` and the end
index `b * size + size - 1` is Yellow when the bar is filled and Off when not, and
the single pair at the end index (the header) is Red when filled and Green when not;
the blink flag stays off. -/
theorem c5_spans (value range b p : Nat) (h1 : 1 ≤ range) (h2 : range ≤ 24)
    (hv : value ≤ range) (hb : b < range) :
    ∃ buf, update value range = some (buf, false) ∧
      (b * (24 / range) ≤ p → p < b * (24 / range) + (24 / range) - 1 →
        barColorAt buf p = (if b + 1 ≤ value then LedColor.yellow else LedColor.off)) ∧
      barColorAt buf (b * (24 / range) + (24 / range) - 1) =
        (if b + 1 ≤ value then LedColor.red else LedColor.green) := by
  have hs := spanCheck_true range (by omega) value (by omega) h1 hv
  unfold spanCheck at hs
  cases hup : update value range with
  | none => rw [hup] at hs; exact Bool.noConfusion hs
  | some pr =>
    rw [hup] at hs
    obtain ⟨buf, blink⟩ := pr
    have hs2 : spanCheckBuf value range buf blink = true := hs
    simp only [spanCheckBuf, Bool.and_eq_true, Bool.not_eq_true', List.all_eq_true,
      decide_eq_true_eq] at hs2
    obtain ⟨hblink, hall⟩ := hs2
    subst hblink
    obtain ⟨hhead, hbody⟩ := hall b (List.mem_range.mpr hb)
    have hs1 : 1 ≤ 24 / range := (Nat.one_le_div_iff (by omega)).mpr h2
    refine ⟨buf, rfl, ?_, hhead⟩
    intro hp1 hp2
    exact hbody p (List.mem_range'.mpr ⟨p - b * (24 / range), by omega, by omega⟩)

/-- Witness for C5 from `update(3, 6)` at the first bar and its first body pair. -/
theorem c5_spans_witness :
    ∃ buf, update 3 6 = some (buf, false) ∧
      (0 * (24 / 6) ≤ 0 → 0 < 0 * (24 / 6) + (24 / 6) - 1 →
        barColorAt buf 0 = (if 0 + 1 ≤ 3 then LedColor.yellow else LedColor.off)) ∧
      barColorAt buf (0 * (24 / 6) + (24 / 6) - 1) =
        (if 0 + 1 ≤ 3 then LedColor.red else LedColor.green) :=
  c5_spans 3 6 0 0 (by decide) (by decide) (by decide) (by decide)

/-- C6 (amended): `update(0, range)` for a valid range produces a non-blinking
buffer whose bar bodies are Off but whose bar headers are Green, so the buffer is
not all-off. -/
theorem c6_headers_green (range : Nat) (h1 : 1 ≤ range) (h2 : range ≤ 24) :
    ∃ buf, update 0 range = some (buf, false) ∧ buf ≠ zeroBuffer ∧
      ∀ b, b < range →
        barColorAt buf (b * (24 / range) + (24 / range) - 1) = LedColor.green ∧
        ∀ p, b * (24 / range) ≤ p → p < b * (24 / range) + (24 / range) - 1 →
          barColorAt buf p = LedColor.off := by
  have hs := spanCheck_true range (by omega) 0 (by omega) h1 (by omega)
  unfold spanCheck at hs
  cases hup : update 0 range with
  | none => rw [hup] at hs; exact Bool.noConfusion hs
  | some pr =>
    rw [hup] at hs
    obtain ⟨buf, blink⟩ := pr
    have hs2 : spanCheckBuf 0 range buf blink = true := hs
    simp only [spanCheckBuf, Bool.and_eq_true, Bool.not_eq_true', List.all_eq_true,
      decide_eq_true_eq] at hs2
    obtain ⟨hblink, hall⟩ := hs2
    subst hblink
    have hs1 : 1 ≤ 24 / range := (Nat.one_le_div_iff (by omega)).mpr h2
    have hzero : ∀ q, q < 24 → barColorAt zeroBuffer q = LedColor.off := by decide
    refine ⟨buf, rfl, ?_, ?_⟩
    · intro hbz
      obtain ⟨hhead, -⟩ := hall 0 (List.mem_range.mpr (by omega))
      rw [if_neg (by omega)] at hhead
      rw [hbz] at hhead
      have h24 : 0 * (24 / range) + (24 / range) - 1 < 24 := by
        have := Nat.div_le_self 24 range
        omega
      have hoff := hzero _ h24
      rw [barColorAt] at hoff
      rw [hoff] at hhead
      exact LedColor.noConfusion hhead
    · intro b hb
      obtain ⟨hhead, hbody⟩ := hall b (List.mem_range.mpr hb)
      have hif : ¬ (b + 1 ≤ 0) := by omega
      rw [if_neg hif] at hhead
      refine ⟨hhead, ?_⟩
      intro p hp1 hp2
      have hmem := hbody p (List.mem_range'.mpr ⟨p - b * (24 / range), by omega, by omega⟩)
      rw [if_neg hif] at hmem
      exact hmem

/-- Witness for C6 (amended) at range 6. -/
theorem c6_headers_green_witness :
    ∃ buf, update 0 6 = some (buf, false) ∧ buf ≠ zeroBuffer ∧
      ∀ b, b < 6 →
        barColorAt buf (b * (24 / 6) + (24 / 6) - 1) = LedColor.green ∧
        ∀ p, b * (24 / 6) ≤ p → p < b * (24 / 6) + (24 / 6) - 1 →
          barColorAt buf p = LedColor.off :=
  c6_headers_green 6 (by decide) (by decide)

end LedBargraph
